import Mathlib

/-!
Verification of the go-umami metrics facade: a shallow embedding of the
dynamic enablement engine (Level/Mask policy, Context gating, noop and
switchable metric cells, Group factory/tracking, Registry) together with
theorems checking the specification's claims against the embedded code.

Machine integers: Go's `Level` is an `int8` used only for order comparison,
embedded as `Int`; Go's `Mask` is a `uint64` bitset, embedded as `Nat` with
an explicit 64-bit complement (`(2^64 - 1) ^^^ f`) where Go uses `&^`.
Go `error` results are embedded as `Option String` (`none` = nil error);
`float64` values are only ever passed through to the backend untouched, so
they are embedded as `ℚ`.
-/

/-! ## Level (level.go) -/

abbrev Level := Int

def LevelDisabled : Level := -1

def LevelCritical : Level := 0

def LevelImportant : Level := 1

def LevelDebug : Level := 2

def LevelVerbose : Level := 3

/-- Go: `func (l Level) Enabled(configuredLevel Level) bool`:
`l <= configuredLevel && configuredLevel != LevelDisabled`. -/
def Level.Enabled (l configuredLevel : Level) : Bool :=
  decide (l ≤ configuredLevel) && decide (configuredLevel ≠ LevelDisabled)

/-- LevelOpts passed to SetGroupLevel / SetGlobalLevel. -/
structure LevelOpts where
  ReplaceNoops : Bool := false

/-! ## Mask (level.go) -/

abbrev Mask := Nat

def MaskCounters : Mask := 1 <<< 0

def MaskLatency : Mask := 1 <<< 2

def MaskThroughput : Mask := 1 <<< 3

def MaskErrors : Mask := 1 <<< 4

def MaskResources : Mask := 1 <<< 5

def MaskQueues : Mask := 1 <<< 6

def MaskConnections : Mask := 1 <<< 7

def MaskCache : Mask := 1 <<< 8

def MaskCircuitBreaker : Mask := 1 <<< 9

def MaskHealth : Mask := 1 <<< 10

def MaskSecurity : Mask := 1 <<< 11

def MaskPerformance : Mask := 1 <<< 12

def MaskInternal : Mask := 1 <<< 13

def MaskPerUser : Mask := 1 <<< 14

def MaskPerRequest : Mask := 1 <<< 15

def MaskDetailed : Mask := 1 <<< 16

def MaskNone : Mask := 0

def MaskEssential : Mask := MaskCounters ||| MaskLatency ||| MaskErrors

def MaskProduction : Mask :=
  MaskEssential ||| MaskThroughput ||| MaskResources ||| MaskQueues

/-- Go: `^Mask(0)` on a 64-bit unsigned integer. -/
def MaskAll : Mask := 2 ^ 64 - 1

/-- Go: `func (m Mask) Has(flag Mask) bool { return m&flag != 0 }` -/
def Mask.Has (m flag : Mask) : Bool := decide (m &&& flag ≠ 0)

/-- Go: `func (m Mask) Add(flag Mask) Mask { return m | flag }` -/
def Mask.Add (m flag : Mask) : Mask := m ||| flag

/-- Go: `func (m Mask) Remove(flag Mask) Mask { return m &^ flag }`; the Go
AND-NOT on `uint64` is conjunction with the 64-bit complement of `flag`,
i.e. with `(2^64 - 1) ^^^ flag`. -/
def Mask.Remove (m flag : Mask) : Mask := m &&& (MaskAll ^^^ flag)

/-- The sixteen named single-category flags declared in level.go (note the
source skips bit 1: `MaskCounters` is bit 0 and `MaskLatency` is bit 2). -/
def maskFlags : List Mask :=
  [MaskCounters, MaskLatency, MaskThroughput, MaskErrors, MaskResources,
   MaskQueues, MaskConnections, MaskCache, MaskCircuitBreaker, MaskHealth,
   MaskSecurity, MaskPerformance, MaskInternal, MaskPerUser, MaskPerRequest,
   MaskDetailed]

/-! ## Context (context.go, the current non-mask variant) -/

structure MetricsContext where
  level : Level

def NewContext (level : Level) : MetricsContext := ⟨level⟩

/-- Go: `func (c *metricsContext) Enabled(level Level) bool { return level.Enabled(c.level) }` -/
def MetricsContext.Enabled (c : MetricsContext) (level : Level) : Bool :=
  Level.Enabled level c.level

def MetricsContext.WithLevel (_ : MetricsContext) (level : Level) : MetricsContext :=
  ⟨level⟩

/-! ## C4: Level.Enabled semantics -/

/-- C4: for all levels L and C, if C = Disabled then `L.Enabled(C)` is false
for every L, and if C ≠ Disabled then `L.Enabled(C)` is true exactly when
L ≤ C. -/
theorem c4_level_enabled (L C : Level) :
    (C = LevelDisabled → Level.Enabled L C = false) ∧
    (C ≠ LevelDisabled → (Level.Enabled L C = true ↔ L ≤ C)) := by
  constructor
  · intro h
    simp [Level.Enabled, h]
  · intro h
    simp [Level.Enabled, h]

/-- C4 witness: concrete checks that `Enabled` is false whenever the
configured level is Disabled, and otherwise reduces to the order test. -/
theorem c4_level_enabled_witness :
    Level.Enabled LevelDebug LevelDisabled = false ∧
    Level.Enabled LevelCritical LevelDebug = true ∧
    Level.Enabled LevelVerbose LevelDebug ≠ true := by
  refine ⟨(c4_level_enabled LevelDebug LevelDisabled).1 rfl, ?_, ?_⟩
  · exact ((c4_level_enabled LevelCritical LevelDebug).2 (by decide)).mpr (by decide)
  · intro h
    exact absurd (((c4_level_enabled LevelVerbose LevelDebug).2 (by decide)).mp h)
      (by decide)

/-! ## C8: Mask Has/Add/Remove algebra -/

/-- Each named flag is a single bit below 64. -/
theorem maskFlag_isBit (F : Mask) (h : F ∈ maskFlags) : ∃ k, k < 64 ∧ F = 2 ^ k := by
  fin_cases h
  · exact ⟨0, by decide, by decide⟩
  · exact ⟨2, by decide, by decide⟩
  · exact ⟨3, by decide, by decide⟩
  · exact ⟨4, by decide, by decide⟩
  · exact ⟨5, by decide, by decide⟩
  · exact ⟨6, by decide, by decide⟩
  · exact ⟨7, by decide, by decide⟩
  · exact ⟨8, by decide, by decide⟩
  · exact ⟨9, by decide, by decide⟩
  · exact ⟨10, by decide, by decide⟩
  · exact ⟨11, by decide, by decide⟩
  · exact ⟨12, by decide, by decide⟩
  · exact ⟨13, by decide, by decide⟩
  · exact ⟨14, by decide, by decide⟩
  · exact ⟨15, by decide, by decide⟩
  · exact ⟨16, by decide, by decide⟩

/-- Bits of the all-ones mask: exactly the 64 low bits are set. -/
theorem maskAll_testBit (i : Nat) : MaskAll.testBit i = decide (i < 64) := by
  rw [show MaskAll = 2 ^ 64 - 1 from rfl, Nat.testBit_two_pow_sub_one]

/-- C8: for every 64-bit mask M and every named flag F, `M.Add(F).Has(F)` is
true, `M.Remove(F).Has(F)` is false, and Add/Remove leave every bit of M
outside the bits of F unchanged. -/
theorem c8_mask_add_remove (M F : Mask) (hM : M < 2 ^ 64) (hF : F ∈ maskFlags) :
    Mask.Has (Mask.Add M F) F = true ∧
    Mask.Has (Mask.Remove M F) F = false ∧
    ∀ i, F.testBit i = false →
      (Mask.Add M F).testBit i = M.testBit i ∧
      (Mask.Remove M F).testBit i = M.testBit i := by
  obtain ⟨k, hk, rfl⟩ := maskFlag_isBit F hF
  refine ⟨?_, ?_, ?_⟩
  · have hbit : ((M ||| 2 ^ k) &&& 2 ^ k).testBit k = true := by
      simp [Nat.testBit_land, Nat.testBit_lor, Nat.testBit_two_pow]
    simp only [Mask.Has, Mask.Add, decide_eq_true_iff]
    intro h0
    rw [h0] at hbit
    simp [Nat.zero_testBit] at hbit
  · have hzero : Mask.Remove M (2 ^ k) &&& 2 ^ k = 0 := by
      apply Nat.eq_of_testBit_eq
      intro i
      by_cases hki : k = i
      · subst hki
        simp [Mask.Remove, maskAll_testBit, Nat.testBit_land, Nat.testBit_xor,
          Nat.testBit_two_pow, hk]
      · simp [Nat.testBit_land, Nat.testBit_two_pow, hki]
    simp [Mask.Has, hzero]
  · intro i hFi
    have hknei : decide (k = i) = false := by
      rw [Nat.testBit_two_pow] at hFi
      exact hFi
    constructor
    · simp [Mask.Add, Nat.testBit_lor, hFi]
    · by_cases hi : i < 64
      · simp [Mask.Remove, maskAll_testBit, Nat.testBit_land, Nat.testBit_xor,
          Nat.testBit_two_pow, hknei, hi]
      · have hMi : M.testBit i = false := by
          apply Nat.testBit_eq_false_of_lt
          calc M < 2 ^ 64 := hM
            _ ≤ 2 ^ i := Nat.pow_le_pow_right (by norm_num) (le_of_not_lt hi)
        simp [Mask.Remove, maskAll_testBit, Nat.testBit_land, Nat.testBit_xor,
          Nat.testBit_two_pow, hknei, hi, hMi]

/-- C8 witness: the mask algebra evaluated at M = 5 and F = MaskErrors,
checking bit 0 (a bit of M outside F) is untouched by Add and Remove. -/
theorem c8_mask_add_remove_witness :
    Mask.Has (Mask.Add 5 MaskErrors) MaskErrors = true ∧
    Mask.Has (Mask.Remove 5 MaskErrors) MaskErrors = false ∧
    (Mask.Add 5 MaskErrors).testBit 0 = (5 : Mask).testBit 0 ∧
    (Mask.Remove 5 MaskErrors).testBit 0 = (5 : Mask).testBit 0 := by
  have h := c8_mask_add_remove 5 MaskErrors (by norm_num) (by decide)
  exact ⟨h.1, h.2.1, (h.2.2 0 (by decide)).1, (h.2.2 0 (by decide)).2⟩

/-! ## Basic base metrics (backend.go, current version)

Go `error` is `Err := Option String` (`none` = nil); adapters are capability
records over an abstract backend state `σ`, each operation returning the new
backend state and an error. -/

abbrev Err := Option String

abbrev VecLabels := List (String × String)

structure CounterAdapter (σ : Type) where
  Inc : σ → σ × Err
  Add : ℚ → σ → σ × Err

structure CounterVecAdapter (σ : Type) where
  Inc : VecLabels → σ → σ × Err
  Add : ℚ → VecLabels → σ → σ × Err

structure GaugeAdapter (σ : Type) where
  Set : ℚ → σ → σ × Err
  Inc : σ → σ × Err
  Dec : σ → σ × Err
  Add : ℚ → σ → σ × Err

structure GaugeVecAdapter (σ : Type) where
  Set : ℚ → VecLabels → σ → σ × Err
  Inc : VecLabels → σ → σ × Err
  Dec : VecLabels → σ → σ × Err
  Add : ℚ → VecLabels → σ → σ × Err

structure HistogramAdapter (σ : Type) where
  Observe : ℚ → σ → σ × Err

structure HistogramVecAdapter (σ : Type) where
  Observe : ℚ → VecLabels → σ → σ × Err

structure SummaryAdapter (σ : Type) where
  Observe : ℚ → σ → σ × Err
  Quantile : ℚ → σ → σ × ℚ × Err

structure SummaryVecAdapater (σ : Type) where
  Observe : ℚ → VecLabels → σ → σ × Err
  Quantile : ℚ → VecLabels → σ → σ × ℚ × Err

structure baseCounter (σ : Type) where
  level : Level
  name : String
  help : String
  adapter : CounterAdapter σ

/-- Go: `baseCounter.Inc`: `if !ctx.Enabled(c.level) { return nil }; return c.adapter.Inc()` -/
def baseCounter.Inc (c : baseCounter σ) (ctx : MetricsContext) (s : σ) : σ × Err :=
  if !(MetricsContext.Enabled ctx c.level) then (s, none)
  else c.adapter.Inc s

def baseCounter.Add (c : baseCounter σ) (ctx : MetricsContext) (value : ℚ) (s : σ) :
    σ × Err :=
  if !(MetricsContext.Enabled ctx c.level) then (s, none)
  else c.adapter.Add value s

structure baseCounterVec (σ : Type) where
  level : Level
  name : String
  help : String
  adapter : CounterVecAdapter σ

def baseCounterVec.Inc (cv : baseCounterVec σ) (ctx : MetricsContext) (labels : VecLabels)
    (s : σ) : σ × Err :=
  if !(MetricsContext.Enabled ctx cv.level) then (s, none)
  else cv.adapter.Inc labels s

def baseCounterVec.Add (cv : baseCounterVec σ) (ctx : MetricsContext) (value : ℚ)
    (labels : VecLabels) (s : σ) : σ × Err :=
  if !(MetricsContext.Enabled ctx cv.level) then (s, none)
  else cv.adapter.Add value labels s

structure baseGauge (σ : Type) where
  level : Level
  name : String
  help : String
  adapter : GaugeAdapter σ

def baseGauge.Set (g : baseGauge σ) (ctx : MetricsContext) (value : ℚ) (s : σ) : σ × Err :=
  if !(MetricsContext.Enabled ctx g.level) then (s, none)
  else g.adapter.Set value s

def baseGauge.Inc (g : baseGauge σ) (ctx : MetricsContext) (s : σ) : σ × Err :=
  if !(MetricsContext.Enabled ctx g.level) then (s, none)
  else g.adapter.Inc s

def baseGauge.Dec (g : baseGauge σ) (ctx : MetricsContext) (s : σ) : σ × Err :=
  if !(MetricsContext.Enabled ctx g.level) then (s, none)
  else g.adapter.Dec s

def baseGauge.Add (g : baseGauge σ) (ctx : MetricsContext) (value : ℚ) (s : σ) : σ × Err :=
  if !(MetricsContext.Enabled ctx g.level) then (s, none)
  else g.adapter.Add value s

structure baseGaugeVec (σ : Type) where
  level : Level
  name : String
  help : String
  adapter : GaugeVecAdapter σ

def baseGaugeVec.Set (gv : baseGaugeVec σ) (ctx : MetricsContext) (value : ℚ)
    (labels : VecLabels) (s : σ) : σ × Err :=
  if !(MetricsContext.Enabled ctx gv.level) then (s, none)
  else gv.adapter.Set value labels s

def baseGaugeVec.Inc (gv : baseGaugeVec σ) (ctx : MetricsContext) (labels : VecLabels)
    (s : σ) : σ × Err :=
  if !(MetricsContext.Enabled ctx gv.level) then (s, none)
  else gv.adapter.Inc labels s

def baseGaugeVec.Dec (gv : baseGaugeVec σ) (ctx : MetricsContext) (labels : VecLabels)
    (s : σ) : σ × Err :=
  if !(MetricsContext.Enabled ctx gv.level) then (s, none)
  else gv.adapter.Dec labels s

def baseGaugeVec.Add (gv : baseGaugeVec σ) (ctx : MetricsContext) (value : ℚ)
    (labels : VecLabels) (s : σ) : σ × Err :=
  if !(MetricsContext.Enabled ctx gv.level) then (s, none)
  else gv.adapter.Add value labels s

structure baseHistogram (σ : Type) where
  level : Level
  name : String
  help : String
  adapter : HistogramAdapter σ

def baseHistogram.Observe (h : baseHistogram σ) (ctx : MetricsContext) (value : ℚ)
    (s : σ) : σ × Err :=
  if !(MetricsContext.Enabled ctx h.level) then (s, none)
  else h.adapter.Observe value s

structure baseHistogramVec (σ : Type) where
  level : Level
  name : String
  help : String
  adapter : HistogramVecAdapter σ

def baseHistogramVec.Observe (hv : baseHistogramVec σ) (ctx : MetricsContext) (value : ℚ)
    (labels : VecLabels) (s : σ) : σ × Err :=
  if !(MetricsContext.Enabled ctx hv.level) then (s, none)
  else hv.adapter.Observe value labels s

structure baseSummary (σ : Type) where
  level : Level
  name : String
  help : String
  adapter : SummaryAdapter σ

def baseSummary.Observe (sm : baseSummary σ) (ctx : MetricsContext) (value : ℚ)
    (s : σ) : σ × Err :=
  if !(MetricsContext.Enabled ctx sm.level) then (s, none)
  else sm.adapter.Observe value s

/-- Go: `baseSummary.Quantile`: disabled path is `return 0, nil`. -/
def baseSummary.Quantile (sm : baseSummary σ) (ctx : MetricsContext) (q : ℚ)
    (s : σ) : σ × ℚ × Err :=
  if !(MetricsContext.Enabled ctx sm.level) then (s, 0, none)
  else sm.adapter.Quantile q s

structure baseSummaryVec (σ : Type) where
  level : Level
  name : String
  help : String
  adapter : SummaryVecAdapater σ

def baseSummaryVec.Observe (sv : baseSummaryVec σ) (ctx : MetricsContext) (value : ℚ)
    (labels : VecLabels) (s : σ) : σ × Err :=
  if !(MetricsContext.Enabled ctx sv.level) then (s, none)
  else sv.adapter.Observe value labels s

def baseSummaryVec.Quantile (sv : baseSummaryVec σ) (ctx : MetricsContext) (q : ℚ)
    (labels : VecLabels) (s : σ) : σ × ℚ × Err :=
  if !(MetricsContext.Enabled ctx sv.level) then (s, 0, none)
  else sv.adapter.Quantile q labels s

/-! ## C3: disabled contexts short-circuit every basic-metric operation -/

/-- C3: whenever the Context's configured level does not enable a metric's
declared Level, every operation of every basic metric kind returns the
documented safe default (nil error; 0 for Quantile) and leaves the backend
state untouched (no adapter call), for arbitrary adapters. -/
theorem c3_disabled_short_circuit {σ : Type} (ctx : MetricsContext)
    (c : baseCounter σ) (cv : baseCounterVec σ) (g : baseGauge σ) (gv : baseGaugeVec σ)
    (h : baseHistogram σ) (hv : baseHistogramVec σ) (sm : baseSummary σ)
    (sv : baseSummaryVec σ)
    (value q : ℚ) (labels : VecLabels) (s : σ)
    (hc : MetricsContext.Enabled ctx c.level = false)
    (hcv : MetricsContext.Enabled ctx cv.level = false)
    (hg : MetricsContext.Enabled ctx g.level = false)
    (hgv : MetricsContext.Enabled ctx gv.level = false)
    (hh : MetricsContext.Enabled ctx h.level = false)
    (hhv : MetricsContext.Enabled ctx hv.level = false)
    (hsm : MetricsContext.Enabled ctx sm.level = false)
    (hsv : MetricsContext.Enabled ctx sv.level = false) :
    baseCounter.Inc c ctx s = (s, none) ∧
    baseCounter.Add c ctx value s = (s, none) ∧
    baseCounterVec.Inc cv ctx labels s = (s, none) ∧
    baseCounterVec.Add cv ctx value labels s = (s, none) ∧
    baseGauge.Set g ctx value s = (s, none) ∧
    baseGauge.Inc g ctx s = (s, none) ∧
    baseGauge.Dec g ctx s = (s, none) ∧
    baseGauge.Add g ctx value s = (s, none) ∧
    baseGaugeVec.Set gv ctx value labels s = (s, none) ∧
    baseGaugeVec.Inc gv ctx labels s = (s, none) ∧
    baseGaugeVec.Dec gv ctx labels s = (s, none) ∧
    baseGaugeVec.Add gv ctx value labels s = (s, none) ∧
    baseHistogram.Observe h ctx value s = (s, none) ∧
    baseHistogramVec.Observe hv ctx value labels s = (s, none) ∧
    baseSummary.Observe sm ctx value s = (s, none) ∧
    baseSummary.Quantile sm ctx q s = (s, 0, none) ∧
    baseSummaryVec.Observe sv ctx value labels s = (s, none) ∧
    baseSummaryVec.Quantile sv ctx q labels s = (s, 0, none) := by
  simp [baseCounter.Inc, baseCounter.Add, baseCounterVec.Inc, baseCounterVec.Add,
    baseGauge.Set, baseGauge.Inc, baseGauge.Dec, baseGauge.Add,
    baseGaugeVec.Set, baseGaugeVec.Inc, baseGaugeVec.Dec, baseGaugeVec.Add,
    baseHistogram.Observe, baseHistogramVec.Observe,
    baseSummary.Observe, baseSummary.Quantile,
    baseSummaryVec.Observe, baseSummaryVec.Quantile,
    hc, hcv, hg, hgv, hh, hhv, hsm, hsv]

/-- Counting adapters mirroring the repository's mock backend (the mock
counter counts Inc calls, etc.): used to witness C3 on a concrete backend. -/
def countingCounterAdapter : CounterAdapter ℚ :=
  { Inc := fun s => (s + 1, none), Add := fun v s => (s + v, none) }

def countingCounterVecAdapter : CounterVecAdapter ℚ :=
  { Inc := fun _ s => (s + 1, none), Add := fun v _ s => (s + v, none) }

def countingGaugeAdapter : GaugeAdapter ℚ :=
  { Set := fun v _ => (v, none), Inc := fun s => (s + 1, none),
    Dec := fun s => (s - 1, none), Add := fun v s => (s + v, none) }

def countingGaugeVecAdapter : GaugeVecAdapter ℚ :=
  { Set := fun v _ _ => (v, none), Inc := fun _ s => (s + 1, none),
    Dec := fun _ s => (s - 1, none), Add := fun v _ s => (s + v, none) }

def countingHistogramAdapter : HistogramAdapter ℚ :=
  { Observe := fun _ s => (s + 1, none) }

def countingHistogramVecAdapter : HistogramVecAdapter ℚ :=
  { Observe := fun _ _ s => (s + 1, none) }

def countingSummaryAdapter : SummaryAdapter ℚ :=
  { Observe := fun _ s => (s + 1, none), Quantile := fun _ s => (s + 1, 7, none) }

def countingSummaryVecAdapter : SummaryVecAdapater ℚ :=
  { Observe := fun _ _ s => (s + 1, none), Quantile := fun _ _ s => (s + 1, 7, none) }

/-- C3 witness: a Context at Critical does not enable Debug, and each of the
eighteen operations on Debug-level metrics over counting adapters leaves the
invocation count at its initial value 0 and returns the safe default. -/
theorem c3_disabled_short_circuit_witness :
    MetricsContext.Enabled (NewContext LevelCritical) LevelDebug = false ∧
    (baseCounter.Inc ⟨LevelDebug, "c", "", countingCounterAdapter⟩
      (NewContext LevelCritical) 0 = ((0 : ℚ), none) ∧
     baseSummary.Quantile ⟨LevelDebug, "s", "", countingSummaryAdapter⟩
      (NewContext LevelCritical) (9/10) 0 = ((0 : ℚ), 0, none)) := by
  have h := c3_disabled_short_circuit (NewContext LevelCritical)
    ⟨LevelDebug, "c", "", countingCounterAdapter⟩
    ⟨LevelDebug, "cv", "", countingCounterVecAdapter⟩
    ⟨LevelDebug, "g", "", countingGaugeAdapter⟩
    ⟨LevelDebug, "gv", "", countingGaugeVecAdapter⟩
    ⟨LevelDebug, "h", "", countingHistogramAdapter⟩
    ⟨LevelDebug, "hv", "", countingHistogramVecAdapter⟩
    ⟨LevelDebug, "s", "", countingSummaryAdapter⟩
    ⟨LevelDebug, "sv", "", countingSummaryVecAdapter⟩
    3 (9/10) [("m", "GET")] 0
    (by decide) (by decide) (by decide) (by decide)
    (by decide) (by decide) (by decide) (by decide)
  exact ⟨by decide, h.1, h.2.2.2.2.2.2.2.2.2.2.2.2.2.2.2.1⟩

/-! ## Masked variant: histogram Time (src/unnamed/part_000) and the
noop histogram Time (noop.go)

The mask-aware engine's context carries a Level and a Mask; its histogram's
`Time(ctx, fn)` always runs `fn` and returns its error, and only observes
the elapsed duration when both level and mask are enabled. The elapsed
wall-clock seconds are an environment input `dur`; the wrapped function is a
state transformer `fn : τ → τ × Err`. The source discards the error of the
`Observe` call made on the enabled path. -/

namespace Masked

structure Context where
  level : Level
  mask : Mask

def Context.Enabled (c : Context) (level : Level) : Bool :=
  Level.Enabled level c.level

def Context.EnabledMask (c : Context) (mask : Mask) : Bool :=
  Mask.Has c.mask mask

structure baseHistogram (σ : Type) where
  backend : HistogramAdapter σ
  level : Level
  mask : Mask

def baseHistogram.Observe (h : baseHistogram σ) (ctx : Context) (value : ℚ)
    (s : σ) : σ × Err :=
  if !(Context.Enabled ctx h.level) || !(Context.EnabledMask ctx h.mask) then (s, none)
  else h.backend.Observe value s

/-- Go: `baseHistogram.Time`: when gated off, `return fn()` (function still runs,
nothing observed); otherwise run `fn`, observe the elapsed seconds on the
backend (its error discarded), and return `fn`'s error. -/
def baseHistogram.Time (h : baseHistogram σ) (ctx : Context) {τ : Type}
    (fn : τ → τ × Err) (dur : ℚ) (t : τ) (s : σ) : τ × σ × Err :=
  if !(Context.Enabled ctx h.level) || !(Context.EnabledMask ctx h.mask) then
    ((fn t).1, s, (fn t).2)
  else
    ((fn t).1, (h.backend.Observe dur s).1, (fn t).2)

structure noopHistogram where

def noopHistogram.Observe (_ : noopHistogram) (_ : Context) (_ : ℚ) : Err := none

/-- Go: `func (n *noopHistogram) Time(ctx Context, fn func() error) error { return fn() }` -/
def noopHistogram.Time (_ : noopHistogram) (_ : Context) {τ : Type}
    (fn : τ → τ × Err) (t : τ) : τ × Err := fn t

end Masked

/-! ## C7: Time always runs the function, never times it when disabled -/

/-- C7: for both the real (masked-variant) histogram and the noop histogram,
`Time(ctx, fn)` runs `fn` exactly once (the function state advances by
exactly one application) and returns `fn`'s error, for every Context; and
when the Context does not enable the histogram's Level, the backend state is
untouched (no duration observation). -/
theorem c7_time_runs_fn (σ τ : Type) (h : Masked.baseHistogram σ) (ctx : Masked.Context)
    (fn : τ → τ × Err) (dur : ℚ) (t : τ) (s : σ) :
    (Masked.baseHistogram.Time h ctx fn dur t s).1 = (fn t).1 ∧
    (Masked.baseHistogram.Time h ctx fn dur t s).2.2 = (fn t).2 ∧
    (Masked.Context.Enabled ctx h.level = false →
      (Masked.baseHistogram.Time h ctx fn dur t s).2.1 = s) ∧
    Masked.noopHistogram.Time ⟨⟩ ctx fn t = fn t := by
  refine ⟨?_, ?_, ?_, rfl⟩
  · unfold Masked.baseHistogram.Time
    split <;> rfl
  · unfold Masked.baseHistogram.Time
    split <;> rfl
  · intro hdis
    simp [Masked.baseHistogram.Time, hdis]

/-- C7 witness: a Debug-level, Latency-masked histogram timed under a
Critical/Essential context: the wrapped function (which appends a marker to
the state and fails) still runs, its error comes back, and the backend
observation list stays empty. -/
theorem c7_time_runs_fn_witness :
    (Masked.baseHistogram.Time (σ := List ℚ) (τ := List String)
      ⟨⟨fun v s => (v :: s, none)⟩, LevelDebug, MaskLatency⟩
      ⟨LevelCritical, MaskEssential⟩
      (fun t => ("ran" :: t, some "boom")) (5/2) [] []).1 = ["ran"] ∧
    (Masked.baseHistogram.Time (σ := List ℚ) (τ := List String)
      ⟨⟨fun v s => (v :: s, none)⟩, LevelDebug, MaskLatency⟩
      ⟨LevelCritical, MaskEssential⟩
      (fun t => ("ran" :: t, some "boom")) (5/2) [] []).2.2 = some "boom" ∧
    (Masked.baseHistogram.Time (σ := List ℚ) (τ := List String)
      ⟨⟨fun v s => (v :: s, none)⟩, LevelDebug, MaskLatency⟩
      ⟨LevelCritical, MaskEssential⟩
      (fun t => ("ran" :: t, some "boom")) (5/2) [] []).2.1 = [] := by
  have h := c7_time_runs_fn (List ℚ) (List String)
    ⟨⟨fun v s => (v :: s, none)⟩, LevelDebug, MaskLatency⟩
    ⟨LevelCritical, MaskEssential⟩
    (fun t => ("ran" :: t, some "boom")) (5/2) [] []
  exact ⟨h.1, h.2.1, h.2.2.1 (by decide)⟩

/-! ## Group model (group.go, switchable.go, part_008 noop constructors)

Heap-style embedding: switchable cells live in per-kind stores keyed by
`Nat` ids; the handle a caller keeps is the id, so identity preservation is
id preservation. The backend is the repository's own mock backend
(part_000): a counter adapter is a name plus a running count, a histogram
adapter a name plus its observations. The model covers the counter and
histogram basic kinds and the timer composite — the kinds exercised by the
claims; the remaining kinds repeat the same template. -/

def MetricTypeBasic : Nat := 0

def MetricTypeComposite : Nat := 1

structure CounterOpts where
  FromComposite : Bool := false
  Name : String := ""
  Help : String := ""
deriving DecidableEq

structure HistogramOpts where
  FromComposite : Bool := false
  Name : String := ""
  Help : String := ""
  Buckets : List ℚ := []
deriving DecidableEq

structure TimerOpts where
  Name : String := ""
  Help : String := ""
  HistogramOpts : HistogramOpts := {}
deriving DecidableEq

/-- Association-list lookup with decidable key equality (models Go map read). -/
def lookupA {α β : Type} [DecidableEq α] (k : α) : List (α × β) → Option β
  | [] => none
  | (k', v) :: l => if k' = k then some v else lookupA k l

/-- Pointwise update of an association list (models mutation through a
pointer held in a Go map / by a caller). -/
def updateA {α β : Type} [DecidableEq α] (k : α) (f : β → β) :
    List (α × β) → List (α × β)
  | [] => []
  | (k', v) :: l => (if k' = k then (k', f v) else (k', v)) :: updateA k f l

/-- The current implementation held by a switchable counter cell: either a
`noopCounter` (part_008: baseMetric fields plus the captured opts) or a
`baseCounter` around a mock backend adapter identified by `adapterId`. -/
inductive CounterImpl where
  | noop (copts : CounterOpts) (name help : String) (level : Level)
  | real (name help : String) (level : Level) (adapterId : Nat)
deriving DecidableEq

def CounterImpl.Name : CounterImpl → String
  | .noop _ n _ _ => n
  | .real n _ _ _ => n

def CounterImpl.getLevel : CounterImpl → Level
  | .noop _ _ _ l => l
  | .real _ _ l _ => l

/-- Go: `baseMetric.SetLevel` (shared by the noop and the real impl). -/
def CounterImpl.SetLevel : CounterImpl → Level → CounterImpl
  | .noop o n h _, l => .noop o n h l
  | .real n h _ a, l => .real n h l a

def CounterImpl.isNoopImpl : CounterImpl → Bool
  | .noop _ _ _ _ => true
  | .real _ _ _ _ => false

inductive HistogramImpl where
  | noop (hopts : HistogramOpts) (name help : String) (level : Level)
  | real (name help : String) (level : Level) (adapterId : Nat)
deriving DecidableEq

def HistogramImpl.Name : HistogramImpl → String
  | .noop _ n _ _ => n
  | .real n _ _ _ => n

def HistogramImpl.getLevel : HistogramImpl → Level
  | .noop _ _ _ l => l
  | .real _ _ l _ => l

def HistogramImpl.SetLevel : HistogramImpl → Level → HistogramImpl
  | .noop o n h _, l => .noop o n h l
  | .real n h _ a, l => .real n h l a

def HistogramImpl.isNoopImpl : HistogramImpl → Bool
  | .noop _ _ _ _ => true
  | .real _ _ _ _ => false

/-- Go: `baseSwitchableMetric`: the cell holds the current impl and the `isNoop`
field declared in switchable.go. -/
structure SwitchableCounterCell where
  impl : CounterImpl
  isNoop : Bool
deriving DecidableEq

/-- Go: `newSwitchableCounter` → `newBaseSwitchableMetric`: only the mutex and
`impl` are initialised, so `isNoop` keeps its Go zero value `false`. -/
def newSwitchableCounter (impl : CounterImpl) : SwitchableCounterCell :=
  { impl := impl, isNoop := false }

/-- Go: `baseSwitchableMetric.switchImpl`: replaces `impl`; no other field is
assigned. -/
def SwitchableCounterCell.switchImpl (c : SwitchableCounterCell)
    (newImpl : CounterImpl) : SwitchableCounterCell :=
  { c with impl := newImpl }

/-- Go: `baseSwitchableMetric.SetLevel` delegates to the impl's SetLevel. -/
def SwitchableCounterCell.SetLevel (c : SwitchableCounterCell) (l : Level) :
    SwitchableCounterCell :=
  { c with impl := CounterImpl.SetLevel c.impl l }

structure SwitchableHistogramCell where
  impl : HistogramImpl
  isNoop : Bool
deriving DecidableEq

def newSwitchableHistogram (impl : HistogramImpl) : SwitchableHistogramCell :=
  { impl := impl, isNoop := false }

def SwitchableHistogramCell.SetLevel (c : SwitchableHistogramCell) (l : Level) :
    SwitchableHistogramCell :=
  { c with impl := HistogramImpl.SetLevel c.impl l }

/-- A baseTimer's histogram component: the real branch stores the switchable
histogram handle produced by `g.Histogram`; the noop branch
(`newNoopTimer`) stores a plain `noopHistogram` value directly. -/
inductive HistogramComponent where
  | cellRef (id : Nat)
  | noopDirect (impl : HistogramImpl)
deriving DecidableEq

/-- Go: `baseTimer` (both branches of group.Timer construct one of these: the
noop branch via `newNoopTimer`, which also returns a `*baseTimer`). -/
structure baseTimer where
  name : String
  help : String
  level : Level
  histogram : HistogramComponent
deriving DecidableEq

/-- Go: `baseTimer.Components`: `[]Metric{t.histogram}`. -/
def baseTimer.Components (t : baseTimer) : List HistogramComponent :=
  [t.histogram]

structure SwitchableTimerCell where
  impl : baseTimer
  isNoop : Bool
deriving DecidableEq

def newSwitchableTimer (impl : baseTimer) : SwitchableTimerCell :=
  { impl := impl, isNoop := false }

/-- mockCounterAdapter (part_000): a name and a running count. -/
structure MockCounterAdapter where
  name : String
  count : ℚ
deriving DecidableEq

/-- mockHistogramAdapter (part_000): a name and the observations made. -/
structure MockHistogramAdapter where
  name : String
  observations : List ℚ
deriving DecidableEq

inductive BasicRef where
  | counter (id : Nat)
  | histogram (id : Nat)
deriving DecidableEq

/-- group state (group.go): name, minimum level, the tracked collections,
plus the cell stores and the mock backend's adapter stores. -/
structure GroupState where
  name : String
  minLevel : Level
  counterCells : List (Nat × SwitchableCounterCell)
  histogramCells : List (Nat × SwitchableHistogramCell)
  timerCells : List (Nat × SwitchableTimerCell)
  basics : List (String × BasicRef)
  composites : List (String × Nat)
  noops : List (String × Nat)
  counterAdapters : List (Nat × MockCounterAdapter)
  histogramAdapters : List (Nat × MockHistogramAdapter)
  nextId : Nat
deriving DecidableEq

def newGroup (name : String) (level : Level) : GroupState :=
  { name := name, minLevel := level, counterCells := [], histogramCells := [],
    timerCells := [], basics := [], composites := [], noops := [],
    counterAdapters := [], histogramAdapters := [], nextId := 0 }

/-- Go: `group.getBasic`. -/
def GroupState.getBasic (g : GroupState) (name : String) : Option BasicRef :=
  lookupA name g.basics

/-- Go: `group.getComposite`. -/
def GroupState.getComposite (g : GroupState) (name : String) : Option Nat :=
  lookupA name g.composites

/-- Go: `group.track` for a basic metric: store it under its (already prefixed)
name and, when `isTrackedNoop`, record the name in the noop set with its
MetricType. -/
def GroupState.trackBasic (g : GroupState) (name : String) (r : BasicRef)
    (isTrackedNoop : Bool) : GroupState :=
  { g with basics := (name, r) :: g.basics,
           noops := if isTrackedNoop then (name, MetricTypeBasic) :: g.noops
                    else g.noops }

/-- Go: `group.track` for a composite metric. -/
def GroupState.trackComposite (g : GroupState) (name : String) (cid : Nat)
    (isTrackedNoop : Bool) : GroupState :=
  { g with composites := (name, cid) :: g.composites,
           noops := if isTrackedNoop then (name, MetricTypeComposite) :: g.noops
                    else g.noops }

/-- Go: `group.Counter` (group.go): prefix the name with the group name, return
the tracked switchable if the name is already tracked (unless the request
comes from a composite), otherwise build a noop or real impl depending on
whether the declared level is enabled under the group's minimum level, wrap
it in a fresh switchable cell and (unless from a composite) track it.
Returns the cell id; `none` models the panic of the `m.(Counter)` type
assertion when the tracked metric has another kind. -/
def GroupState.Counter (g : GroupState) (opts0 : CounterOpts) (level : Level) :
    GroupState × Option Nat :=
  let opts := { opts0 with Name := g.name ++ "_" ++ opts0.Name }
  match (if opts.FromComposite then none else GroupState.getBasic g opts.Name) with
  | some (BasicRef.counter cid) => (g, some cid)
  | some (BasicRef.histogram _) => (g, none)
  | none =>
    if !(Level.Enabled level g.minLevel) then
      let impl := CounterImpl.noop opts opts.Name opts.Help level
      let isTrackedNoop := !opts.FromComposite
      let cid := g.nextId
      let g1 := { g with counterCells := (cid, newSwitchableCounter impl) :: g.counterCells,
                         nextId := g.nextId + 1 }
      if !opts.FromComposite then
        (GroupState.trackBasic g1 opts.Name (BasicRef.counter cid) isTrackedNoop, some cid)
      else (g1, some cid)
    else
      let aid := g.nextId
      let cid := g.nextId + 1
      let impl := CounterImpl.real opts.Name opts.Help level aid
      let g1 := { g with counterAdapters :=
                           (aid, { name := opts.Name, count := 0 }) :: g.counterAdapters,
                         counterCells := (cid, newSwitchableCounter impl) :: g.counterCells,
                         nextId := g.nextId + 2 }
      if !opts.FromComposite then
        (GroupState.trackBasic g1 opts.Name (BasicRef.counter cid) false, some cid)
      else (g1, some cid)

/-- Go: `group.Histogram` (group.go): same template as `group.Counter`. -/
def GroupState.Histogram (g : GroupState) (opts0 : HistogramOpts) (level : Level) :
    GroupState × Option Nat :=
  let opts := { opts0 with Name := g.name ++ "_" ++ opts0.Name }
  match (if opts.FromComposite then none else GroupState.getBasic g opts.Name) with
  | some (BasicRef.histogram hid) => (g, some hid)
  | some (BasicRef.counter _) => (g, none)
  | none =>
    if !(Level.Enabled level g.minLevel) then
      let impl := HistogramImpl.noop opts opts.Name opts.Help level
      let isTrackedNoop := !opts.FromComposite
      let hid := g.nextId
      let g1 := { g with histogramCells := (hid, newSwitchableHistogram impl) :: g.histogramCells,
                         nextId := g.nextId + 1 }
      if !opts.FromComposite then
        (GroupState.trackBasic g1 opts.Name (BasicRef.histogram hid) isTrackedNoop, some hid)
      else (g1, some hid)
    else
      let aid := g.nextId
      let hid := g.nextId + 1
      let impl := HistogramImpl.real opts.Name opts.Help level aid
      let g1 := { g with histogramAdapters :=
                           (aid, { name := opts.Name, observations := [] }) :: g.histogramAdapters,
                         histogramCells := (hid, newSwitchableHistogram impl) :: g.histogramCells,
                         nextId := g.nextId + 2 }
      if !opts.FromComposite then
        (GroupState.trackBasic g1 opts.Name (BasicRef.histogram hid) false, some hid)
      else (g1, some hid)

/-- Go: `switchableTimer.SetLevel` delegates to `impl.SetLevel` on the wrapped
`*baseTimer`. `*baseTimer` has no SetLevel of its own: it gets the method
promoted from the embedded `baseCompositeMetric`, whose receiver is only
that embedded struct; inside it, `b.Components()` resolves statically to
`baseCompositeMetric.Components` (Go embedding does no virtual dispatch),
which returns nil. The loop over components therefore never runs and no
field is assigned: the call is a no-op on the whole state. -/
def GroupState.timerSetLevel (g : GroupState) (_cid : Nat) (_level : Level) : GroupState :=
  g

/-- Go: `group.Timer` (group.go): no name prefixing for the composite itself;
idempotent on the composites map; the noop branch builds a `baseTimer` over
a direct `noopHistogram` via `newNoopTimer` (which names the component
`opts.Name + "_histogram"`), the real branch builds it over the switchable
histogram returned by `g.Histogram` with `FromComposite` set. After
wrapping, `switchable.SetLevel(level)` is invoked (a no-op, see
`GroupState.timerSetLevel`) and the switchable is tracked. -/
def GroupState.Timer (g : GroupState) (opts0 : TimerOpts) (level : Level) :
    GroupState × Option Nat :=
  match GroupState.getComposite g opts0.Name with
  | some cid => (g, some cid)
  | none =>
    let opts := { opts0 with
      HistogramOpts := { opts0.HistogramOpts with FromComposite := true } }
    if !(Level.Enabled level g.minLevel) then
      let hopts := { opts.HistogramOpts with
                     FromComposite := true
                     Name := opts.Name ++ "_histogram" }
      let impl : baseTimer :=
        { name := opts.Name, help := opts.Help, level := level,
          histogram := HistogramComponent.noopDirect
            (HistogramImpl.noop hopts hopts.Name hopts.Help level) }
      let cid := g.nextId
      let g1 := { g with timerCells := (cid, newSwitchableTimer impl) :: g.timerCells,
                         nextId := g.nextId + 1 }
      let g2 := GroupState.timerSetLevel g1 cid level
      (GroupState.trackComposite g2 opts.Name cid true, some cid)
    else
      match GroupState.Histogram g opts.HistogramOpts level with
      | (g1, some hid) =>
        let impl : baseTimer :=
          { name := opts.Name, help := opts.Help, level := level,
            histogram := HistogramComponent.cellRef hid }
        let cid := g1.nextId
        let g2 := { g1 with timerCells := (cid, newSwitchableTimer impl) :: g1.timerCells,
                            nextId := g1.nextId + 1 }
        let g3 := GroupState.timerSetLevel g2 cid level
        (GroupState.trackComposite g3 opts.Name cid false, some cid)
      | (g1, none) => (g1, none)

/-- Go: `group.convertNoops` (group.go): the body iterates the noop set and
switches on the stored MetricType value with empty case bodies
(`case 1:` / `case 2:`, each just a comment), so the fold changes nothing:
no upgrade is performed and no name is removed from the noop set. -/
def GroupState.convertNoops (g : GroupState) : GroupState :=
  g.noops.foldl (fun acc cl =>
    match cl.2 with
    | 1 => acc
    | 2 => acc
    | _ => acc) g

/-- Apply `switchable.SetLevel` through a tracked basic ref (the else branch
of SetGroupLevel writes through the cells held in `basics`). -/
def GroupState.setBasicLevel (g : GroupState) (r : BasicRef) (level : Level) :
    GroupState :=
  match r with
  | BasicRef.counter cid =>
    { g with counterCells :=
        updateA cid (fun c => SwitchableCounterCell.SetLevel c level) g.counterCells }
  | BasicRef.histogram hid =>
    { g with histogramCells :=
        updateA hid (fun c => SwitchableHistogramCell.SetLevel c level) g.histogramCells }

/-- Go: `group.SetGroupLevel` (group.go): first assigns `g.minLevel = level`,
then tests `opts.ReplaceNoops && level.Enabled(g.minLevel)` — which, after
the assignment, is `level.Enabled(level)` — and either runs the
(do-nothing) `convertNoops` or re-issues SetLevel on every tracked
composite (a no-op, see `timerSetLevel`) and basic switchable. -/
def GroupState.SetGroupLevel (g0 : GroupState) (level : Level) (opts : LevelOpts) :
    GroupState :=
  let g := { g0 with minLevel := level }
  if opts.ReplaceNoops && Level.Enabled level g.minLevel then
    GroupState.convertNoops g
  else
    let g1 := g.composites.foldl (fun acc p => GroupState.timerSetLevel acc p.2 level) g
    g1.basics.foldl (fun acc p => GroupState.setBasicLevel acc p.2 level) g1

/-- Name reported by a tracked basic switchable (delegated to the impl). -/
def GroupState.basicName (g : GroupState) (r : BasicRef) : String :=
  match r with
  | BasicRef.counter cid =>
    match lookupA cid g.counterCells with
    | some c => CounterImpl.Name c.impl
    | none => ""
  | BasicRef.histogram hid =>
    match lookupA hid g.histogramCells with
    | some c => HistogramImpl.Name c.impl
    | none => ""

/-- Name reported by a tracked timer switchable. -/
def GroupState.timerName (g : GroupState) (cid : Nat) : String :=
  match lookupA cid g.timerCells with
  | some c => c.impl.name
  | none => ""

inductive MetricHandle where
  | basic (r : BasicRef)
  | composite (cid : Nat)
deriving DecidableEq

/-- Go: `group.Metric` (group.go): linear scan of the tracked basics comparing
each switchable's `Name()` with the query, then the composites; `none`
models the nil return. -/
def GroupState.Metric (g : GroupState) (name : String) : Option MetricHandle :=
  match g.basics.find? (fun p => GroupState.basicName g p.2 == name) with
  | some p => some (MetricHandle.basic p.2)
  | none =>
    match g.composites.find? (fun p => GroupState.timerName g p.2 == name) with
    | some p => some (MetricHandle.composite p.2)
    | none => none

/-- Go: `switchableCounter.Inc` on the handle `cid`: delegate to the current
impl; a noop impl returns nil doing nothing, a real impl is the gated
`baseCounter.Inc` whose enabled path calls the mock adapter's `Inc`
(`count++`). -/
def GroupState.counterInc (g : GroupState) (cid : Nat) (ctx : MetricsContext) :
    GroupState × Err :=
  match lookupA cid g.counterCells with
  | none => (g, none)
  | some cell =>
    match cell.impl with
    | CounterImpl.noop _ _ _ _ => (g, none)
    | CounterImpl.real _ _ lvl aid =>
      if !(MetricsContext.Enabled ctx lvl) then (g, none)
      else ({ g with counterAdapters :=
                updateA aid (fun a => { a with count := a.count + 1 }) g.counterAdapters },
            none)

/-- Go: `switchableTimer.Components` on the handle: delegate to
`baseTimer.Components`. -/
def GroupState.timerComponents (g : GroupState) (cid : Nat) : List HistogramComponent :=
  match lookupA cid g.timerCells with
  | some cell => baseTimer.Components cell.impl
  | none => []

/-- Go: `Level()` reported by a timer component (through the switchable cell for
a cell reference, directly for a noop value). -/
def GroupState.componentLevel (g : GroupState) (c : HistogramComponent) : Level :=
  match c with
  | HistogramComponent.cellRef hid =>
    match lookupA hid g.histogramCells with
    | some cell => HistogramImpl.getLevel cell.impl
    | none => LevelDisabled
  | HistogramComponent.noopDirect impl => HistogramImpl.getLevel impl

/-! ## C6: the switchable cell's isNoop flag is never maintained -/

/-- C6 counterexample/divergence: `newBaseSwitchableMetric` never assigns
`isNoop` (it keeps the Go zero value `false`) and `switchImpl` does not
update it either, so immediately after wrapping a noop implementation the
recorded flag is `false` while the wrapped impl *is* a noop, and after
switching a real cell to a noop impl the flag is still `false`. -/
theorem c6_isNoop_flag_never_assigned :
    (newSwitchableCounter
      (CounterImpl.noop { Name := "test_c" } "test_c" "" LevelDebug)).isNoop = false ∧
    CounterImpl.isNoopImpl
      (CounterImpl.noop { Name := "test_c" } "test_c" "" LevelDebug) = true ∧
    (SwitchableCounterCell.switchImpl
      (newSwitchableCounter (CounterImpl.real "test_c" "" LevelDebug 0))
      (CounterImpl.noop { Name := "test_c" } "test_c" "" LevelDebug)).isNoop = false := by
  decide

/-! ## C1: SetGroupLevel with ReplaceNoops never upgrades anything -/

/-- The scenario fixed by the claim: a group at Disabled with a counter
declared at Debug. -/
def c1Group : GroupState × Option Nat :=
  GroupState.Counter (newGroup "test" LevelDisabled)
    { Name := "c", Help := "A test counter" } LevelDebug

/-- The same group after `SetGroupLevel(Debug, {ReplaceNoops:true})` and one
`Inc` on the original handle under a Debug context. -/
def c1AfterInc : GroupState × Err :=
  GroupState.counterInc
    (GroupState.SetGroupLevel c1Group.1 LevelDebug { ReplaceNoops := true })
    0 (NewContext LevelDebug)

/-- C1 divergence, evaluated: after `SetGroupLevel(Debug, {ReplaceNoops:true})`
on a Disabled group with a Debug counter, an `Inc` on the original handle
reaches the backend zero times (no counter adapter was ever constructed),
the cell still wraps the noop implementation, and the name is still in the
noop set — `convertNoops` is an empty stub, so nothing is upgraded or
removed. -/
theorem c1_replace_noops_does_nothing :
    c1Group.2 = some 0 ∧
    c1AfterInc.2 = none ∧
    c1AfterInc.1.counterAdapters = [] ∧
    (∃ cell, lookupA 0 c1AfterInc.1.counterCells = some cell ∧
      CounterImpl.isNoopImpl cell.impl = true) ∧
    lookupA "test_c" c1AfterInc.1.noops = some MetricTypeBasic := by
  exact ⟨by decide, by decide, by decide,
    ⟨newSwitchableCounter
      (CounterImpl.noop { Name := "test_c", Help := "A test counter" }
        "test_c" "A test counter" LevelDebug), by decide, by decide⟩,
    by decide⟩

/-! ## C2: composite SetLevel does not propagate to components -/

/-- A timer built on an enabled group: the histogram component is the
switchable cell with id 1 (the mock adapter got id 0), the timer cell id 2. -/
def c2Timer : GroupState × Option Nat :=
  GroupState.Timer (newGroup "g" LevelVerbose)
    { Name := "t", HistogramOpts := { Name := "h" } } LevelDebug

/-- C2 divergence, evaluated: `SetLevel(Critical)` on the timer switchable
resolves to the SetLevel promoted from the embedded `baseCompositeMetric`,
whose `Components()` call statically returns nil, so nothing is iterated:
afterwards the single component returned by `Components()` still reports
Level Debug, not Critical. -/
theorem c2_composite_setlevel_no_propagation :
    c2Timer.2 = some 2 ∧
    (GroupState.timerComponents
      (GroupState.timerSetLevel c2Timer.1 2 LevelCritical) 2 =
        [HistogramComponent.cellRef 1] ∧
     GroupState.componentLevel
      (GroupState.timerSetLevel c2Timer.1 2 LevelCritical)
      (HistogramComponent.cellRef 1) = LevelDebug ∧
     LevelDebug ≠ LevelCritical) := by
  refine ⟨by decide, by decide, by decide, by decide⟩

/-! ## C5: factory idempotence by name -/

/-- After a successful non-composite Counter request, the group's name is
unchanged and the (prefixed) metric name is tracked, mapping to the returned
cell. -/
theorem counter_request_tracks (g : GroupState) (opts : CounterOpts) (level : Level)
    (h : opts.FromComposite = false) (g1 : GroupState) (c1 : Nat)
    (hfirst : GroupState.Counter g opts level = (g1, some c1)) :
    g1.name = g.name ∧
    GroupState.getBasic g1 (g.name ++ "_" ++ opts.Name) = some (BasicRef.counter c1) := by
  rcases hlk : GroupState.getBasic g (g.name ++ "_" ++ opts.Name) with _ | r
  · simp only [GroupState.Counter, h, Bool.not_false, Bool.false_eq_true, if_false,
      if_true, hlk] at hfirst
    split at hfirst <;>
      simp only [Prod.mk.injEq, Option.some.injEq] at hfirst <;>
      obtain ⟨hg, hc⟩ := hfirst <;>
      subst hg <;>
      subst hc <;>
      exact ⟨rfl, by simp [GroupState.getBasic, GroupState.trackBasic, lookupA]⟩
  · rcases r with cid | hid
    · simp only [GroupState.Counter, h, Bool.false_eq_true, if_false, hlk,
        Prod.mk.injEq, Option.some.injEq] at hfirst
      obtain ⟨hg, hc⟩ := hfirst
      subst hg
      subst hc
      exact ⟨rfl, hlk⟩
    · simp only [GroupState.Counter, h, Bool.false_eq_true, if_false, hlk,
        Prod.mk.injEq] at hfirst
      exact absurd hfirst.2 (by simp)

/-- C5: a second Counter request for the same name from the same Group
returns the identical switchable handle that the first request returned —
whatever help text or declared Level the second call supplies — and leaves
the group completely unchanged (no second switchable is created or
tracked). (`FromComposite = false` marks ordinary caller requests; the flag
is set only on internal component construction.) -/
theorem c5_counter_idempotent (g : GroupState) (opts opts2 : CounterOpts)
    (level level2 : Level) (g1 : GroupState) (c1 : Nat)
    (h1 : opts.FromComposite = false) (h2 : opts2.FromComposite = false)
    (hname : opts2.Name = opts.Name)
    (hfirst : GroupState.Counter g opts level = (g1, some c1)) :
    GroupState.Counter g1 opts2 level2 = (g1, some c1) := by
  obtain ⟨hn, htr⟩ := counter_request_tracks g opts level h1 g1 c1 hfirst
  have hpn : g1.name ++ "_" ++ opts2.Name = g.name ++ "_" ++ opts.Name := by
    rw [hn, hname]
  simp only [GroupState.Counter, h2, Bool.false_eq_true, if_false, hpn, htr]

/-- C5 witness: on a fresh enabled group, the first request for "req" yields
the cell with id 1; a second request under the same name with different help
text and a different level returns the identical handle and state. -/
theorem c5_counter_idempotent_witness :
    GroupState.Counter (newGroup "web" LevelVerbose) { Name := "req" } LevelCritical =
      ((GroupState.Counter (newGroup "web" LevelVerbose) { Name := "req" } LevelCritical).1,
       some 1) ∧
    GroupState.Counter
      (GroupState.Counter (newGroup "web" LevelVerbose) { Name := "req" } LevelCritical).1
      { Name := "req", Help := "changed" } LevelDebug =
      ((GroupState.Counter (newGroup "web" LevelVerbose) { Name := "req" } LevelCritical).1,
       some 1) := by
  have hfirst : GroupState.Counter (newGroup "web" LevelVerbose)
      { Name := "req" } LevelCritical =
      ((GroupState.Counter (newGroup "web" LevelVerbose) { Name := "req" } LevelCritical).1,
       some 1) := by decide
  exact ⟨hfirst,
    c5_counter_idempotent (newGroup "web" LevelVerbose) { Name := "req" }
      { Name := "req", Help := "changed" } LevelCritical LevelDebug _ 1
      rfl rfl rfl hfirst⟩

/-! ## C10: basic names are group-prefixed, composite names are not -/

/-- A group-prefixed name is never equal to the bare name (it is strictly
longer). -/
theorem prefixed_name_ne (gname n : String) : gname ++ "_" ++ n ≠ n := by
  intro hEq
  have hlen := congrArg String.length hEq
  simp only [String.length_append] at hlen
  have hone : "_".length = 1 := rfl
  omega

/-- C10: on a fresh group named `gname`, a Counter requested under `n` gets
`Name() = gname ++ "_" ++ n`, is tracked under that prefixed name, and
`Metric` finds it only under the prefixed name (`Metric n` is nil); a Timer
requested under `n` keeps `Name() = n` unprefixed and `Metric n` finds it. -/
theorem c10_basic_prefixed_composite_unprefixed (gname n help : String)
    (level L0 : Level) (hopts : HistogramOpts) :
    (∃ cid,
      (GroupState.Counter (newGroup gname L0)
        { FromComposite := false, Name := n, Help := help } level).2 = some cid ∧
      GroupState.basicName
        (GroupState.Counter (newGroup gname L0)
          { FromComposite := false, Name := n, Help := help } level).1
        (BasicRef.counter cid) = gname ++ "_" ++ n ∧
      GroupState.getBasic
        (GroupState.Counter (newGroup gname L0)
          { FromComposite := false, Name := n, Help := help } level).1
        (gname ++ "_" ++ n) = some (BasicRef.counter cid) ∧
      GroupState.Metric
        (GroupState.Counter (newGroup gname L0)
          { FromComposite := false, Name := n, Help := help } level).1 n = none ∧
      GroupState.Metric
        (GroupState.Counter (newGroup gname L0)
          { FromComposite := false, Name := n, Help := help } level).1
        (gname ++ "_" ++ n) = some (MetricHandle.basic (BasicRef.counter cid))) ∧
    (∃ tid,
      (GroupState.Timer (newGroup gname L0)
        { Name := n, Help := help, HistogramOpts := hopts } level).2 = some tid ∧
      GroupState.timerName
        (GroupState.Timer (newGroup gname L0)
          { Name := n, Help := help, HistogramOpts := hopts } level).1 tid = n ∧
      GroupState.Metric
        (GroupState.Timer (newGroup gname L0)
          { Name := n, Help := help, HistogramOpts := hopts } level).1 n =
        some (MetricHandle.composite tid)) := by
  have hne := prefixed_name_ne gname n
  cases he : Level.Enabled level L0
  · constructor
    · refine ⟨0, ?_, ?_, ?_, ?_, ?_⟩ <;>
        simp [GroupState.Counter, GroupState.Metric, GroupState.getBasic,
          GroupState.trackBasic, GroupState.basicName, CounterImpl.Name, newGroup,
          newSwitchableCounter, lookupA, List.find?, he, hne]
    · refine ⟨0, ?_, ?_, ?_⟩ <;>
        simp [GroupState.Timer, GroupState.Metric, GroupState.getComposite,
          GroupState.trackComposite, GroupState.timerName, GroupState.timerSetLevel,
          newGroup, newSwitchableTimer, lookupA, List.find?, he]
  · constructor
    · refine ⟨1, ?_, ?_, ?_, ?_, ?_⟩ <;>
        simp [GroupState.Counter, GroupState.Metric, GroupState.getBasic,
          GroupState.trackBasic, GroupState.basicName, CounterImpl.Name, newGroup,
          newSwitchableCounter, lookupA, List.find?, he, hne]
    · refine ⟨2, ?_, ?_, ?_⟩ <;>
        simp [GroupState.Timer, GroupState.Histogram, GroupState.Metric,
          GroupState.getComposite, GroupState.getBasic, GroupState.trackComposite,
          GroupState.timerName, GroupState.timerSetLevel, newGroup,
          newSwitchableTimer, newSwitchableHistogram, lookupA, List.find?, he]

/-! ## Registry (registry.go) -/

structure RegistryState where
  groups : List (String × GroupState)
  globalLevel : Level
deriving DecidableEq

def NewRegistry (level : Level) : RegistryState :=
  { groups := [], globalLevel := level }

/-- Go: `slices.Min` on the supplied levels (the caller guards against the empty
slice, on which Go would panic). -/
def slicesMin : List Level → Level
  | [] => 0
  | x :: xs => xs.foldl min x

/-- Go: `registry.NewGroup` (registry.go): return the existing group on a name
collision (backend and levels ignored); otherwise pick the minimum of the
supplied levels — or the registry's global level when none are supplied —
as the new group's minimum level, create and store it. -/
def RegistryState.NewGroup (m : RegistryState) (name : String) (level : List Level) :
    RegistryState × GroupState :=
  match lookupA name m.groups with
  | some g => (m, g)
  | none =>
    let level := if level.length = 0 then [m.globalLevel] else level
    let minLevel := slicesMin level
    let g := newGroup name minLevel
    ({ m with groups := (name, g) :: m.groups }, g)

/-- Go: `registry.Group`: the stored group, or nil. -/
def RegistryState.Group (m : RegistryState) (name : String) : Option GroupState :=
  lookupA name m.groups

/-! ## C9: NewGroup idempotence, minimum of supplied levels, global default -/

/-- A left fold of `min` is below its start and every element. -/
theorem foldl_min_le (xs : List Level) (a : Level) :
    xs.foldl min a ≤ a ∧ ∀ x ∈ xs, xs.foldl min a ≤ x := by
  induction xs generalizing a with
  | nil => exact ⟨le_refl a, by intro x hx; cases hx⟩
  | cons y ys ih =>
    obtain ⟨h1, h2⟩ := ih (min a y)
    refine ⟨le_trans h1 (min_le_left a y), ?_⟩
    intro x hx
    rcases List.mem_cons.mp hx with rfl | hx
    · exact le_trans h1 (min_le_right a x)
    · exact h2 x hx

/-- A left fold of `min` is its start or one of the elements. -/
theorem foldl_min_mem (xs : List Level) (a : Level) :
    xs.foldl min a = a ∨ xs.foldl min a ∈ xs := by
  induction xs generalizing a with
  | nil => exact Or.inl rfl
  | cons y ys ih =>
    rcases ih (min a y) with h | h
    · rcases le_total a y with hay | hya
      · exact Or.inl (by rw [List.foldl_cons, h, min_eq_left hay])
      · exact Or.inr (by rw [List.foldl_cons, h, min_eq_right hya]; exact
          List.mem_cons_self _ _)
    · exact Or.inr (List.mem_cons_of_mem _ h)

/-- C9: `NewGroup` is idempotent by name — on a collision the stored group is
returned and the registry (hence backend and levels) is untouched; on a
fresh name with levels supplied, the created group's minimum level is the
lowest of the supplied levels; with no level supplied it is the registry's
global default. -/
theorem c9_newgroup_idempotent_min (m : RegistryState) (name : String)
    (levels : List Level) :
    (∀ g, lookupA name m.groups = some g →
      RegistryState.NewGroup m name levels = (m, g)) ∧
    (lookupA name m.groups = none → levels ≠ [] →
      ((RegistryState.NewGroup m name levels).2.minLevel ∈ levels ∧
       ∀ l ∈ levels, (RegistryState.NewGroup m name levels).2.minLevel ≤ l)) ∧
    (lookupA name m.groups = none → levels = [] →
      (RegistryState.NewGroup m name levels).2.minLevel = m.globalLevel) := by
  refine ⟨?_, ?_, ?_⟩
  · intro g hg
    simp [RegistryState.NewGroup, hg]
  · intro hnone hne
    have hlen : ¬ levels.length = 0 := by
      simpa using hne
    rcases levels with _ | ⟨x, xs⟩
    · exact absurd rfl hne
    · simp only [RegistryState.NewGroup, hnone, hlen, if_false, newGroup]
      constructor
      · rcases foldl_min_mem xs x with h | h
        · rw [slicesMin, h]; exact List.mem_cons_self _ _
        · rw [slicesMin]; exact List.mem_cons_of_mem _ h
      · intro l hl
        rcases List.mem_cons.mp hl with rfl | hl
        · exact (foldl_min_le xs l).1
        · exact (foldl_min_le xs x).2 l hl
  · intro hnone hnil
    subst hnil
    simp [RegistryState.NewGroup, hnone, slicesMin, newGroup]

/-- C9 witness: create "db" with levels [Verbose, Critical, Debug]
(minimum Critical is chosen), re-request "db" (existing group returned,
parameters ignored), and create "web" with no level (the registry default
Important is used). -/
theorem c9_newgroup_witness :
    lookupA "db" ((RegistryState.NewGroup (NewRegistry LevelImportant) "db"
      [LevelVerbose, LevelCritical, LevelDebug]).1).groups =
      some (newGroup "db" LevelCritical) ∧
    RegistryState.NewGroup
      (RegistryState.NewGroup (NewRegistry LevelImportant) "db"
        [LevelVerbose, LevelCritical, LevelDebug]).1 "db" [LevelDisabled] =
      ((RegistryState.NewGroup (NewRegistry LevelImportant) "db"
        [LevelVerbose, LevelCritical, LevelDebug]).1, newGroup "db" LevelCritical) ∧
    (RegistryState.NewGroup (NewRegistry LevelImportant) "db"
      [LevelVerbose, LevelCritical, LevelDebug]).2.minLevel ∈
      [LevelVerbose, LevelCritical, LevelDebug] ∧
    (RegistryState.NewGroup (NewRegistry LevelImportant) "web" []).2.minLevel =
      LevelImportant := by
  refine ⟨by decide, ?_, ?_, ?_⟩
  · exact (c9_newgroup_idempotent_min
      (RegistryState.NewGroup (NewRegistry LevelImportant) "db"
        [LevelVerbose, LevelCritical, LevelDebug]).1 "db" [LevelDisabled]).1
      (newGroup "db" LevelCritical) (by decide)
  · exact ((c9_newgroup_idempotent_min (NewRegistry LevelImportant) "db"
      [LevelVerbose, LevelCritical, LevelDebug]).2.1 (by decide) (by decide)).1
  · exact (c9_newgroup_idempotent_min (NewRegistry LevelImportant) "web" []).2.2
      (by decide) rfl
